import Mathlib

/-!
Shallow embedding of the indicator engine of `src/Apr.py` (Evaluation-app).

The program loads a spreadsheet into a dataframe, and, driven by which
columns are present, computes a financial indicator triple
(npv, irr, recovery period) and an economic indicator triple
(npv, irr, adjusted capital yield), then assembles a labelled result list.

Modelling choices, all read off the source:
  * a dataframe column is a list of rationals together with a flag telling
    whether its dtype is numeric; elementwise arithmetic on a non-numeric
    column raises TypeError in pandas, which we surface in `Except`;
  * `npf.npv` is the exact discounted sum and is modelled over ℚ;
  * `npf.irr` first reads `values[0]` (IndexError on an empty series), then
    returns NaN when every entry has the sign of the first entry, and only
    otherwise runs its numeric root search; the root search is
    floating-point root finding whose value no claim depends on, so it is a
    parameter `solver` of the development and every theorem holds for all
    of its instantiations;
  * the division `npv_e / data[Corrected_Costs].sum()` is numpy scalar
    division: by zero it emits a runtime warning and produces a signed
    infinity (or NaN for 0/0) — it does not raise;
  * the `try/except` blocks of the two evaluation functions become a match
    on `Except`, the error branch returning the all-`none` triple together
    with the `st.error` message;
  * `main` appends each indicator row only when the value `is not None`.
-/

namespace Apr

/-- A floating-point result value: exact rationals for the finite case plus
the IEEE special values that the numpy computations can produce. -/
inductive FVal where
  | num (q : ℚ)
  | inf
  | ninf
  | nan
deriving DecidableEq

/-- Numpy scalar division of a finite value by a finite value, as performed
for the adjusted capital yield: division by zero yields a signed infinity
(or NaN for 0/0) under a runtime warning; it never raises. -/
def floatDiv (a b : ℚ) : FVal :=
  if b = 0 then
    if 0 < a then FVal.inf
    else if a < 0 then FVal.ninf
    else FVal.nan
  else FVal.num (a / b)

/-- A dataframe column after `fillna(0)`: its cells, and whether the dtype
is numeric (pandas raises TypeError on arithmetic over a non-numeric
column). -/
structure Column where
  numeric : Bool
  vals : List ℚ
deriving DecidableEq

/-- A loaded sheet: named columns in file order. -/
abbrev Table := List (String × Column)

/-- Column lookup, as dataframe indexing does it. -/
def Table.get? : Table → String → Option Column
  | [], _ => none
  | (k, c) :: rest, name => if k = name then some c else Table.get? rest name

/-- `data[name]`: KeyError when the column is absent. -/
def tableCol (t : Table) (name : String) : Except String Column :=
  match t.get? name with
  | some c => Except.ok c
  | none => Except.error ("KeyError: " ++ name)

/-- Pandas elementwise subtraction of two columns of one frame; TypeError
when a column is not numeric. -/
def seriesSub (a b : Column) : Except String (List ℚ) :=
  if a.numeric && b.numeric then
    Except.ok (List.zipWith (fun x y => x - y) a.vals b.vals)
  else Except.error "TypeError"

/-- Pandas `a - b + c` over three columns of one frame; TypeError when one
of them is not numeric. -/
def seriesSubAdd (a b c : Column) : Except String (List ℚ) :=
  if a.numeric && b.numeric && c.numeric then
    Except.ok (List.zipWith (fun x y => x + y)
      (List.zipWith (fun x y => x - y) a.vals b.vals) c.vals)
  else Except.error "TypeError"

/-- `npf.npv(rate, values)`: the values divided elementwise by
`(1+rate) ^ t` for `t = 0, 1, ...` and summed; period 0 is undiscounted. -/
def npf_npv (rate : ℚ) (values : List ℚ) : ℚ :=
  (List.zipWith (fun v t => v / (1 + rate) ^ t) values (List.range values.length)).sum

/-- The same-sign early-exit test of `npf.irr`: every entry strictly
positive when the first is, every entry strictly negative otherwise. -/
def sameSign (v : ℚ) (values : List ℚ) : Bool :=
  if 0 < v then values.all (fun x => decide (0 < x))
  else values.all (fun x => decide (x < 0))

/-- `npf.irr(values)`: reading `values[0]` of an empty series raises
IndexError; a same-sign series returns NaN without raising; otherwise the
numeric root search `solver` runs. -/
def npf_irr (solver : List ℚ → FVal) (values : List ℚ) : Except String FVal :=
  match values with
  | [] => Except.error "IndexError"
  | v :: vs =>
    if sameSign v (v :: vs) then Except.ok FVal.nan
    else Except.ok (solver (v :: vs))

/-- The body of the `try` block of `financial_evaluation`: net cash flows
`Revenues - Total_Costs`, then npv, irr and the count of negative
periods. -/
def finBody (solver : List ℚ → FVal) (t : Table) (r : ℚ) :
    Except String (FVal × FVal × FVal) :=
  match tableCol t "Revenues" with
  | Except.error e => Except.error e
  | Except.ok rev =>
    match tableCol t "Total_Costs" with
    | Except.error e => Except.error e
    | Except.ok tc =>
      match seriesSub rev tc with
      | Except.error e => Except.error e
      | Except.ok cf =>
        match npf_irr solver cf with
        | Except.error e => Except.error e
        | Except.ok irr_f =>
          Except.ok (FVal.num (npf_npv r cf), irr_f,
            FVal.num ((List.countP (fun x => decide (x < 0)) cf : ℕ) : ℚ))

/-- The `st.error` message of the financial `except` branch. -/
def finErrMsg (e : String) : String :=
  "Erreur dans l\x27évaluation financière : " ++ e

/-- `financial_evaluation(data, discount_rate)`: the triple of indicators,
all `some` on success, all `none` when the try block raised, together with
the list of error messages displayed. -/
def financial_evaluation (solver : List ℚ → FVal) (t : Table) (r : ℚ) :
    (Option FVal × Option FVal × Option FVal) × List String :=
  match finBody solver t r with
  | Except.ok (a, b, c) => ((some a, some b, some c), [])
  | Except.error e => ((none, none, none), [finErrMsg e])

/-- The body of the `try` block of `economic_evaluation`: net cash flows
`Corrected_Revenues - Corrected_Costs + Externalities`, then npv, irr and
the adjusted yield `npv / sum(Corrected_Costs)`. -/
def ecoBody (solver : List ℚ → FVal) (t : Table) (r : ℚ) :
    Except String (FVal × FVal × FVal) :=
  match tableCol t "Corrected_Revenues" with
  | Except.error e => Except.error e
  | Except.ok cr =>
    match tableCol t "Corrected_Costs" with
    | Except.error e => Except.error e
    | Except.ok cc =>
      match tableCol t "Externalities" with
      | Except.error e => Except.error e
      | Except.ok ex =>
        match seriesSubAdd cr cc ex with
        | Except.error e => Except.error e
        | Except.ok cf =>
          match npf_irr solver cf with
          | Except.error e => Except.error e
          | Except.ok irr_e =>
            Except.ok (FVal.num (npf_npv r cf), irr_e,
              floatDiv (npf_npv r cf) cc.vals.sum)

/-- The `st.error` message of the economic `except` branch. -/
def ecoErrMsg (e : String) : String :=
  "Erreur dans l\x27évaluation économique : " ++ e

/-- `economic_evaluation(data, discount_rate)`. -/
def economic_evaluation (solver : List ℚ → FVal) (t : Table) (r : ℚ) :
    (Option FVal × Option FVal × Option FVal) × List String :=
  match ecoBody solver t r with
  | Except.ok (a, b, c) => ((some a, some b, some c), [])
  | Except.error e => ((none, none, none), [ecoErrMsg e])

/-- The bilingual label dictionary. -/
def TRANSLATIONS (code lang : String) : String :=
  match code, lang with
  | "VANF", "fr" => "Valeur Actuelle Nette Financière"
  | "VANF", _ => "Financial Net Present Value"
  | "TRIF", "fr" => "Taux de Rendement Interne Financier"
  | "TRIF", _ => "Financial Internal Rate of Return"
  | "DRC", "fr" => "Délai de Récupération du Capital"
  | "DRC", _ => "Capital Recovery Period"
  | "VANE", "fr" => "Valeur Actuelle Nette Économique"
  | "VANE", _ => "Economic Net Present Value"
  | "TRIE", "fr" => "Taux de Rendement Interne Économique"
  | "TRIE", _ => "Economic Internal Rate of Return"
  | "RCA", "fr" => "Rendement du Capital Ajusté"
  | "RCA", _ => "Adjusted Capital Yield"
  | _, _ => ""

/-- The column gate for the financial group in `main`. -/
def hasFinancial (t : Table) : Bool :=
  (t.get? "Year").isSome && (t.get? "Total_Costs").isSome &&
    (t.get? "Revenues").isSome && (t.get? "Residual_Value").isSome

/-- The column gate for the economic group in `main`. -/
def hasEconomic (t : Table) : Bool :=
  (t.get? "Corrected_Costs").isSome && (t.get? "Corrected_Revenues").isSome &&
    (t.get? "Externalities").isSome

/-- `if value is not None: results.append(label, value)`. -/
def optRow (label : String) : Option FVal → List (String × FVal)
  | some v => [(label, v)]
  | none => []

/-- The rows and error messages contributed by the financial branch of
`main` once its gate passed. -/
def finGroup (solver : List ℚ → FVal) (lang : String) (t : Table) (r : ℚ) :
    List (String × FVal) × List String :=
  match financial_evaluation solver t r with
  | ((a, b, c), errs) =>
    (optRow (TRANSLATIONS "VANF" lang) a ++ optRow (TRANSLATIONS "TRIF" lang) b ++
      optRow (TRANSLATIONS "DRC" lang) c, errs)

/-- The rows and error messages contributed by the economic branch of
`main` once its gate passed. -/
def ecoGroup (solver : List ℚ → FVal) (lang : String) (t : Table) (r : ℚ) :
    List (String × FVal) × List String :=
  match economic_evaluation solver t r with
  | ((a, b, c), errs) =>
    (optRow (TRANSLATIONS "VANE" lang) a ++ optRow (TRANSLATIONS "TRIE" lang) b ++
      optRow (TRANSLATIONS "RCA" lang) c, errs)

/-- The outcome of one press of the evaluation button: the labelled result
rows in insertion order, and the error messages displayed. -/
structure RunResult where
  rows : List (String × FVal)
  errors : List String
deriving DecidableEq

/-- The evaluation stage of `main`: each group runs exactly when its column
gate passes, financial rows before economic rows. -/
def runEvaluation (solver : List ℚ → FVal) (lang : String) (t : Table) (r : ℚ) :
    RunResult :=
  let f := if hasFinancial t then finGroup solver lang t r else ([], [])
  let e := if hasEconomic t then ecoGroup solver lang t r else ([], [])
  ⟨f.1 ++ e.1, f.2 ++ e.2⟩

/-- The npv as the specification words it: the cash flow of period `t`
contributes `c_t / (1+rate) ^ t`, period 0 undiscounted. -/
def npvSpec (rate : ℚ) (cf : List ℚ) : ℚ :=
  (cf.enum.map (fun p => p.2 / (1 + rate) ^ p.1)).sum

/-- `data[name]` as a state transformer on the frame: dataframe indexing
reads the frame and leaves it untouched. -/
def tableCol_st (t : Table) (name : String) : Except String Column × Table :=
  (tableCol t name, t)

/-- The try block of `financial_evaluation` with the dataframe threaded
through every statement that touches it, so that mutation-freedom is a
statement and not a modelling assumption. -/
def finBody_st (solver : List ℚ → FVal) (t : Table) (r : ℚ) :
    Except String (FVal × FVal × FVal) × Table :=
  match tableCol_st t "Revenues" with
  | (Except.error e, t1) => (Except.error e, t1)
  | (Except.ok rev, t1) =>
    match tableCol_st t1 "Total_Costs" with
    | (Except.error e, t2) => (Except.error e, t2)
    | (Except.ok tc, t2) =>
      match seriesSub rev tc with
      | Except.error e => (Except.error e, t2)
      | Except.ok cf =>
        match npf_irr solver cf with
        | Except.error e => (Except.error e, t2)
        | Except.ok irr_f =>
          (Except.ok (FVal.num (npf_npv r cf), irr_f,
            FVal.num ((List.countP (fun x => decide (x < 0)) cf : ℕ) : ℚ)), t2)

/-- `financial_evaluation` with the dataframe threaded through. -/
def financial_evaluation_st (solver : List ℚ → FVal) (t : Table) (r : ℚ) :
    ((Option FVal × Option FVal × Option FVal) × List String) × Table :=
  match finBody_st solver t r with
  | (Except.ok (a, b, c), t2) => (((some a, some b, some c), []), t2)
  | (Except.error e, t2) => (((none, none, none), [finErrMsg e]), t2)

/-- The try block of `economic_evaluation` with the dataframe threaded
through every statement that touches it. -/
def ecoBody_st (solver : List ℚ → FVal) (t : Table) (r : ℚ) :
    Except String (FVal × FVal × FVal) × Table :=
  match tableCol_st t "Corrected_Revenues" with
  | (Except.error e, t1) => (Except.error e, t1)
  | (Except.ok cr, t1) =>
    match tableCol_st t1 "Corrected_Costs" with
    | (Except.error e, t2) => (Except.error e, t2)
    | (Except.ok cc, t2) =>
      match tableCol_st t2 "Externalities" with
      | (Except.error e, t3) => (Except.error e, t3)
      | (Except.ok ex, t3) =>
        match seriesSubAdd cr cc ex with
        | Except.error e => (Except.error e, t3)
        | Except.ok cf =>
          match npf_irr solver cf with
          | Except.error e => (Except.error e, t3)
          | Except.ok irr_e =>
            (Except.ok (FVal.num (npf_npv r cf), irr_e,
              floatDiv (npf_npv r cf) cc.vals.sum), t3)

/-- `economic_evaluation` with the dataframe threaded through. -/
def economic_evaluation_st (solver : List ℚ → FVal) (t : Table) (r : ℚ) :
    ((Option FVal × Option FVal × Option FVal) × List String) × Table :=
  match ecoBody_st solver t r with
  | (Except.ok (a, b, c), t2) => (((some a, some b, some c), []), t2)
  | (Except.error e, t2) => (((none, none, none), [ecoErrMsg e]), t2)

/-- A concrete instantiation of the irr root search, used to evaluate the
theorems at concrete inputs; no claim depends on its value. -/
def solver0 : List ℚ → FVal := fun _ => FVal.num 0

/-- A sheet whose Corrected_Costs column sums to zero. -/
def tZeroCost : Table :=
  [("Corrected_Revenues", ⟨true, [1]⟩), ("Corrected_Costs", ⟨true, [0]⟩),
   ("Externalities", ⟨true, [0]⟩)]

/-- A sheet with all four financial columns and an all-positive net
cash-flow series, and no economic column. -/
def tPos : Table :=
  [("Year", ⟨true, [1, 2]⟩), ("Total_Costs", ⟨true, [50, 50]⟩),
   ("Revenues", ⟨true, [100, 100]⟩), ("Residual_Value", ⟨true, [0, 0]⟩)]

/-- The worked example of the specification: Revenues = 100, 100, 100 and
Total_Costs = 50, 150, 50, so the net series is 50, -50, 50. -/
def tSpecEx : Table :=
  [("Year", ⟨true, [1, 2, 3]⟩), ("Total_Costs", ⟨true, [50, 150, 50]⟩),
   ("Revenues", ⟨true, [100, 100, 100]⟩), ("Residual_Value", ⟨true, [0, 0, 0]⟩)]

/-- A sheet whose Revenues column is present but not numeric, so the
financial try block raises TypeError. -/
def tBadFin : Table :=
  [("Year", ⟨true, [1]⟩), ("Total_Costs", ⟨true, [5]⟩),
   ("Revenues", ⟨false, [0]⟩), ("Residual_Value", ⟨true, [0]⟩)]

/-- A sheet whose Corrected_Revenues column is present but not numeric, so
the economic try block raises TypeError. -/
def tBadEco : Table :=
  [("Corrected_Costs", ⟨true, [1]⟩), ("Corrected_Revenues", ⟨false, [0]⟩),
   ("Externalities", ⟨true, [0]⟩)]

/-- A financially complete sheet; compare with `tYearB`. -/
def tYearA : Table :=
  [("Year", ⟨true, [2020, 2021]⟩), ("Total_Costs", ⟨true, [50, 50]⟩),
   ("Revenues", ⟨true, [100, 40]⟩), ("Residual_Value", ⟨true, [7, 7]⟩)]

/-- The same sheet as `tYearA` except for the values of the Year and
Residual_Value columns. -/
def tYearB : Table :=
  [("Year", ⟨true, [1, 2]⟩), ("Total_Costs", ⟨true, [50, 50]⟩),
   ("Revenues", ⟨true, [100, 40]⟩), ("Residual_Value", ⟨true, [9, 9]⟩)]



theorem zipWith_range'_eq_enumFrom (r : ℚ) :
    ∀ (l : List ℚ) (k : ℕ),
      List.zipWith (fun v t => v / (1 + r) ^ t) l (List.range' k l.length) =
        (List.enumFrom k l).map (fun p => p.2 / (1 + r) ^ p.1)
  | [], _ => rfl
  | v :: vs, k => by
    simp only [List.length_cons, List.range'_succ, List.zipWith_cons_cons, List.enumFrom_cons,
      List.map_cons]
    rw [zipWith_range'_eq_enumFrom r vs (k + 1)]

theorem npf_npv_eq_npvSpec (r : ℚ) (l : List ℚ) : npf_npv r l = npvSpec r l := by
  unfold npf_npv npvSpec
  rw [List.range_eq_range', zipWith_range'_eq_enumFrom]
  rfl

theorem snd_mem_of_mem_enumFrom :
    ∀ (l : List ℚ) (k : ℕ) (p : ℕ × ℚ), p ∈ List.enumFrom k l → p.2 ∈ l
  | v :: vs, k, p, h => by
    rcases List.mem_cons.mp h with rfl | h'
    · exact List.mem_cons_self _ _
    · exact List.mem_cons_of_mem _ (snd_mem_of_mem_enumFrom vs (k + 1) p h')

theorem npvSpec_zero (r : ℚ) (l : List ℚ) (h : ∀ x ∈ l, x = 0) : npvSpec r l = 0 := by
  unfold npvSpec
  apply List.sum_eq_zero
  intro x hx
  obtain ⟨p, hp, rfl⟩ := List.mem_map.mp hx
  rw [h p.2 (snd_mem_of_mem_enumFrom l 0 p hp), zero_div]

theorem financial_evaluation_ok (solver : List ℚ → FVal) (t : Table) (r : ℚ)
    (colR colT : Column) (v : ℚ) (vs : List ℚ)
    (hR : t.get? "Revenues" = some colR) (hT : t.get? "Total_Costs" = some colT)
    (hnR : colR.numeric = true) (hnT : colT.numeric = true)
    (hcf : List.zipWith (fun x y => x - y) colR.vals colT.vals = v :: vs) :
    financial_evaluation solver t r =
      ((some (FVal.num (npf_npv r (v :: vs))),
        some (if sameSign v (v :: vs) then FVal.nan else solver (v :: vs)),
        some (FVal.num ((List.countP (fun x => decide (x < 0)) (v :: vs) : ℕ) : ℚ))), []) := by
  simp only [financial_evaluation, finBody, tableCol, hR, hT, seriesSub, hnR, hnT,
    Bool.and_self, if_true, hcf, npf_irr]
  cases h : sameSign v (v :: vs) <;> simp [h]

theorem optRow_map_snd (lab : String) (v : Option FVal) :
    (optRow lab v).map Prod.snd = v.toList := by
  cases v <;> rfl

theorem finGroup_map_snd (solver : List ℚ → FVal) (lang : String) (t : Table) (r : ℚ) :
    (finGroup solver lang t r).1.map Prod.snd =
      (financial_evaluation solver t r).1.1.toList ++
        (financial_evaluation solver t r).1.2.1.toList ++
        (financial_evaluation solver t r).1.2.2.toList := by
  rcases h : financial_evaluation solver t r with ⟨⟨a, b, c⟩, errs⟩
  simp [finGroup, h, optRow_map_snd]

theorem ecoGroup_map_snd (solver : List ℚ → FVal) (lang : String) (t : Table) (r : ℚ) :
    (ecoGroup solver lang t r).1.map Prod.snd =
      (economic_evaluation solver t r).1.1.toList ++
        (economic_evaluation solver t r).1.2.1.toList ++
        (economic_evaluation solver t r).1.2.2.toList := by
  rcases h : economic_evaluation solver t r with ⟨⟨a, b, c⟩, errs⟩
  simp [ecoGroup, h, optRow_map_snd]

theorem finBody_st_eq (solver : List ℚ → FVal) (t : Table) (r : ℚ) :
    finBody_st solver t r = (finBody solver t r, t) := by
  simp only [finBody_st, finBody, tableCol_st]
  cases h1 : tableCol t "Revenues" with
  | error e => rfl
  | ok rev =>
    dsimp only
    cases h2 : tableCol t "Total_Costs" with
    | error e => rfl
    | ok tc =>
      dsimp only
      cases h3 : seriesSub rev tc with
      | error e => rfl
      | ok cf =>
        dsimp only
        cases h4 : npf_irr solver cf with
        | error e => rfl
        | ok irr_f => rfl

theorem ecoBody_st_eq (solver : List ℚ → FVal) (t : Table) (r : ℚ) :
    ecoBody_st solver t r = (ecoBody solver t r, t) := by
  simp only [ecoBody_st, ecoBody, tableCol_st]
  cases h1 : tableCol t "Corrected_Revenues" with
  | error e => rfl
  | ok cr =>
    dsimp only
    cases h2 : tableCol t "Corrected_Costs" with
    | error e => rfl
    | ok cc =>
      dsimp only
      cases h3 : tableCol t "Externalities" with
      | error e => rfl
      | ok ex =>
        dsimp only
        cases h4 : seriesSubAdd cr cc ex with
        | error e => rfl
        | ok cf =>
          dsimp only
          cases h5 : npf_irr solver cf with
          | error e => rfl
          | ok irr_e => rfl

theorem financial_evaluation_st_eq (solver : List ℚ → FVal) (t : Table) (r : ℚ) :
    financial_evaluation_st solver t r = (financial_evaluation solver t r, t) := by
  simp only [financial_evaluation_st, financial_evaluation, finBody_st_eq]
  rcases finBody solver t r with e | ⟨a, b, c⟩ <;> rfl

theorem economic_evaluation_st_eq (solver : List ℚ → FVal) (t : Table) (r : ℚ) :
    economic_evaluation_st solver t r = (economic_evaluation solver t r, t) := by
  simp only [economic_evaluation_st, economic_evaluation, ecoBody_st_eq]
  rcases ecoBody solver t r with e | ⟨a, b, c⟩ <;> rfl



/-- Claim C3: for every table carrying numeric Revenues and Total_Costs
columns with at least one period (on an empty series `npf.irr` raises and
the try block discards the whole triple), the npv component returned by
`financial_evaluation` is exactly the discounted sum of the per-period net
cash flows, period 0 undiscounted and period t divided by (1+rate) ^ t;
and the npv of an all-zero series is 0. -/
theorem C3_npv_discounted_sum (solver : List ℚ → FVal) (t : Table) (r : ℚ)
    (colR colT : Column) (v : ℚ) (vs : List ℚ)
    (hR : t.get? "Revenues" = some colR) (hT : t.get? "Total_Costs" = some colT)
    (hnR : colR.numeric = true) (hnT : colT.numeric = true)
    (hcf : List.zipWith (fun x y => x - y) colR.vals colT.vals = v :: vs) :
    (financial_evaluation solver t r).1.1 = some (FVal.num (npvSpec r (v :: vs))) ∧
    (∀ m : ℕ, npvSpec r (List.replicate m 0) = 0) := by
  constructor
  · rw [financial_evaluation_ok solver t r colR colT v vs hR hT hnR hnT hcf]
    simp [npf_npv_eq_npvSpec]
  · intro m
    exact npvSpec_zero r _ (fun x hx => List.eq_of_mem_replicate hx)

/-- Claim C3 witness: the theorem evaluated on the worked example sheet. -/
theorem C3_witness :
    (financial_evaluation solver0 tSpecEx (2/25)).1.1 =
      some (FVal.num (npvSpec (2/25) [50, -50, 50])) ∧
    npvSpec (2/25) (List.replicate 3 0) = 0 := by
  have h := C3_npv_discounted_sum solver0 tSpecEx (2/25) ⟨true, [100, 100, 100]⟩
    ⟨true, [50, 150, 50]⟩ 50 [-50, 50] rfl rfl rfl rfl (by norm_num)
  exact ⟨h.1, h.2 3⟩

/-- Claim C4: the recovery-period component returned by
`financial_evaluation` is the count of the individual periods whose net
cash flow Revenues - Total_Costs is negative, not a cumulative break-even
crossing point. -/
theorem C4_recovery_counts_negative_periods (solver : List ℚ → FVal) (t : Table) (r : ℚ)
    (colR colT : Column) (v : ℚ) (vs : List ℚ)
    (hR : t.get? "Revenues" = some colR) (hT : t.get? "Total_Costs" = some colT)
    (hnR : colR.numeric = true) (hnT : colT.numeric = true)
    (hcf : List.zipWith (fun x y => x - y) colR.vals colT.vals = v :: vs) :
    (financial_evaluation solver t r).1.2.2 =
      some (FVal.num ((List.countP (fun x => decide (x < 0)) (v :: vs) : ℕ) : ℚ)) := by
  rw [financial_evaluation_ok solver t r colR colT v vs hR hT hnR hnT hcf]

/-- Claim C4 witness: on the example of the specification, with net series
50, -50, 50, the recovery period is 1. -/
theorem C4_witness :
    (financial_evaluation solver0 tSpecEx (2/25)).1.2.2 = some (FVal.num 1) := by
  have h := C4_recovery_counts_negative_periods solver0 tSpecEx (2/25) ⟨true, [100, 100, 100]⟩
    ⟨true, [50, 150, 50]⟩ 50 [-50, 50] rfl rfl rfl rfl (by norm_num)
  rw [h]
  norm_num [List.countP_cons, List.countP_nil]

/-- Claim C10: whenever `financial_evaluation` succeeds, the returned
recovery period is a natural number no greater than the number of rows of
the table. -/
theorem C10_recovery_period_bounded (solver : List ℚ → FVal) (t : Table) (r : ℚ)
    (colR colT : Column) (v : ℚ) (vs : List ℚ) (n : ℕ)
    (hR : t.get? "Revenues" = some colR) (hT : t.get? "Total_Costs" = some colT)
    (hnR : colR.numeric = true) (hnT : colT.numeric = true)
    (hcf : List.zipWith (fun x y => x - y) colR.vals colT.vals = v :: vs)
    (hLR : colR.vals.length = n) (hLT : colT.vals.length = n) :
    ∃ k : ℕ, (financial_evaluation solver t r).1.2.2 = some (FVal.num k) ∧ k ≤ n := by
  refine ⟨List.countP (fun x => decide (x < 0)) (v :: vs), ?_, ?_⟩
  · rw [financial_evaluation_ok solver t r colR colT v vs hR hT hnR hnT hcf]
  · have hlen : (v :: vs).length = n := by
      rw [← hcf, List.length_zipWith, hLR, hLT, min_self]
    rw [← hlen]
    exact List.countP_le_length _

/-- Claim C10 witness: the bound evaluated on the worked example sheet. -/
theorem C10_witness :
    ∃ k : ℕ, (financial_evaluation solver0 tSpecEx (2/25)).1.2.2 = some (FVal.num k) ∧ k ≤ 3 :=
  C10_recovery_period_bounded solver0 tSpecEx (2/25) ⟨true, [100, 100, 100]⟩
    ⟨true, [50, 150, 50]⟩ 50 [-50, 50] 3 rfl rfl rfl rfl (by norm_num) rfl rfl

/-- Claim C7: running the evaluation with language fr and with language en
produces result rows with identical numeric values in identical order;
only the label text differs. -/
theorem C7_language_changes_labels_only (solver : List ℚ → FVal) (t : Table) (r : ℚ) :
    (runEvaluation solver "fr" t r).rows.map Prod.snd =
      (runEvaluation solver "en" t r).rows.map Prod.snd := by
  simp only [runEvaluation, List.map_append]
  cases hf : hasFinancial t <;> cases he : hasEconomic t <;>
    simp [finGroup_map_snd, ecoGroup_map_snd]

/-- Claim C9: neither evaluation mutates the input table, on the success
path and on the failure path alike: the state-threaded embeddings return
the table unchanged and compute the same results as the direct ones. -/
theorem C9_evaluations_do_not_mutate (solver : List ℚ → FVal) (t : Table) (r : ℚ) :
    (financial_evaluation_st solver t r).2 = t ∧
    (economic_evaluation_st solver t r).2 = t ∧
    (financial_evaluation_st solver t r).1 = financial_evaluation solver t r ∧
    (economic_evaluation_st solver t r).1 = economic_evaluation solver t r := by
  simp [financial_evaluation_st_eq, economic_evaluation_st_eq]

/-- Claim C5: the financial group runs exactly when Year, Total_Costs,
Revenues and Residual_Value are all present, the economic group exactly
when Corrected_Costs, Corrected_Revenues and Externalities are all
present, and the two decisions are independent: when one gate fails the
result rows are exactly those of the other group. -/
theorem C5_column_gating (solver : List ℚ → FVal) (lang : String) (t : Table) (r : ℚ) :
    (hasFinancial t = true ↔
      ((t.get? "Year").isSome = true ∧ (t.get? "Total_Costs").isSome = true ∧
        (t.get? "Revenues").isSome = true ∧ (t.get? "Residual_Value").isSome = true)) ∧
    (hasEconomic t = true ↔
      ((t.get? "Corrected_Costs").isSome = true ∧ (t.get? "Corrected_Revenues").isSome = true ∧
        (t.get? "Externalities").isSome = true)) ∧
    (runEvaluation solver lang t r).rows =
      (if hasFinancial t then (finGroup solver lang t r).1 else []) ++
        (if hasEconomic t then (ecoGroup solver lang t r).1 else []) ∧
    (hasEconomic t = false →
      (runEvaluation solver lang t r).rows =
        (if hasFinancial t then (finGroup solver lang t r).1 else [])) ∧
    (hasFinancial t = false →
      (runEvaluation solver lang t r).rows =
        (if hasEconomic t then (ecoGroup solver lang t r).1 else [])) := by
  refine ⟨?_, ?_, ?_, ?_, ?_⟩
  · simp [hasFinancial, and_assoc]
  · simp [hasEconomic, and_assoc]
  · cases hf : hasFinancial t <;> cases he : hasEconomic t <;> simp [runEvaluation, hf, he]
  · intro he
    cases hf : hasFinancial t <;> simp [runEvaluation, hf, he]
  · intro hf
    cases he : hasEconomic t <;> simp [runEvaluation, hf, he]

/-- Claim C5 witness: a sheet with all financial columns and no
Externalities column produces the financial rows only. -/
theorem C5_witness :
    hasEconomic tPos = false ∧
    (runEvaluation solver0 "en" tPos (2/25)).rows = (finGroup solver0 "en" tPos (2/25)).1 := by
  have he : hasEconomic tPos = false := rfl
  have h := (C5_column_gating solver0 "en" tPos (2/25)).2.2.2.1 he
  refine ⟨he, ?_⟩
  rw [h]
  have hf : hasFinancial tPos = true := rfl
  rw [hf]
  rfl

/-- Claim C8: Year and Residual_Value are gate columns only: two tables
that agree on Revenues and Total_Costs and both pass the financial gate
receive identical results from `financial_evaluation`, whatever the
values of their Year and Residual_Value columns. -/
theorem C8_year_residual_value_unread (solver : List ℚ → FVal) (r : ℚ) (t1 t2 : Table)
    (hrev : t1.get? "Revenues" = t2.get? "Revenues")
    (htc : t1.get? "Total_Costs" = t2.get? "Total_Costs")
    (hf1 : hasFinancial t1 = true) (hf2 : hasFinancial t2 = true) :
    financial_evaluation solver t1 r = financial_evaluation solver t2 r := by
  simp only [financial_evaluation, finBody, tableCol, hrev, htc]

/-- Claim C8 witness: `tYearA` and `tYearB` differ in Year and
Residual_Value only and evaluate identically. -/
theorem C8_witness :
    financial_evaluation solver0 tYearA (2/25) = financial_evaluation solver0 tYearB (2/25) :=
  C8_year_residual_value_unread solver0 (2/25) tYearA tYearB rfl rfl rfl rfl

/-- Claim C6: when the try block of an evaluation raises, the three
indicators of that group are discarded together — the triple is all
`none` and the group contributes no result row — and the descriptive
error message of the except branch is reported. -/
theorem C6_exception_discards_group (solver : List ℚ → FVal) (lang : String) (t : Table)
    (r : ℚ) (e : String) :
    (finBody solver t r = Except.error e →
      financial_evaluation solver t r = ((none, none, none), [finErrMsg e]) ∧
        (finGroup solver lang t r).1 = []) ∧
    (ecoBody solver t r = Except.error e →
      economic_evaluation solver t r = ((none, none, none), [ecoErrMsg e]) ∧
        (ecoGroup solver lang t r).1 = []) := by
  constructor
  · intro h
    have hfe : financial_evaluation solver t r = ((none, none, none), [finErrMsg e]) := by
      simp [financial_evaluation, h]
    exact ⟨hfe, by simp [finGroup, hfe, optRow]⟩
  · intro h
    have hee : economic_evaluation solver t r = ((none, none, none), [ecoErrMsg e]) := by
      simp [economic_evaluation, h]
    exact ⟨hee, by simp [ecoGroup, hee, optRow]⟩

/-- Claim C6 witness: sheets with a present but non-numeric column make
each try block raise TypeError, and the whole group is dropped. -/
theorem C6_witness :
    (financial_evaluation solver0 tBadFin (2/25) = ((none, none, none), [finErrMsg "TypeError"]) ∧
      (finGroup solver0 "fr" tBadFin (2/25)).1 = []) ∧
    (economic_evaluation solver0 tBadEco (2/25) = ((none, none, none), [ecoErrMsg "TypeError"]) ∧
      (ecoGroup solver0 "fr" tBadEco (2/25)).1 = []) :=
  ⟨(C6_exception_discards_group solver0 "fr" tBadFin (2/25) "TypeError").1 rfl,
    (C6_exception_discards_group solver0 "fr" tBadEco (2/25) "TypeError").2 rfl⟩

/-- Claim C2 (amended): on a table whose net cash-flow series is all
positive, `npf.irr` takes its same-sign early exit and returns NaN without
raising; no error is reported and the npv and recovery-period indicators
are still produced; and since `main` only filters `None`, the irr row
appears in the result set carrying the NaN value. -/
theorem C2_all_positive_irr_nan (solver : List ℚ → FVal) (lang : String) (t : Table) (r : ℚ)
    (colR colT : Column) (v : ℚ) (vs : List ℚ)
    (hR : t.get? "Revenues" = some colR) (hT : t.get? "Total_Costs" = some colT)
    (hnR : colR.numeric = true) (hnT : colT.numeric = true)
    (hcf : List.zipWith (fun x y => x - y) colR.vals colT.vals = v :: vs)
    (hpos : ∀ x ∈ v :: vs, 0 < x) :
    financial_evaluation solver t r =
      ((some (FVal.num (npf_npv r (v :: vs))), some FVal.nan, some (FVal.num 0)), []) ∧
    (hasFinancial t = true →
      (TRANSLATIONS "TRIF" lang, FVal.nan) ∈ (runEvaluation solver lang t r).rows) := by
  have hsame : sameSign v (v :: vs) = true := by
    unfold sameSign
    rw [if_pos (hpos v (List.mem_cons_self v vs))]
    exact List.all_eq_true.mpr (fun x hx => decide_eq_true (hpos x hx))
  have hcount : List.countP (fun x => decide (x < 0)) (v :: vs) = 0 := by
    apply List.countP_eq_zero.mpr
    intro a ha
    simp only [decide_eq_true_eq, not_lt]
    exact le_of_lt (hpos a ha)
  have heval := financial_evaluation_ok solver t r colR colT v vs hR hT hnR hnT hcf
  rw [hsame] at heval
  simp only [if_true, hcount, Nat.cast_zero] at heval
  refine ⟨heval, fun hf => ?_⟩
  simp [runEvaluation, hf, finGroup, heval, optRow]

/-- Claim C2, counterexample to the claim as stated: on the concrete
all-positive sheet `tPos` the irr indicator is not absent from the result
set — its row is present, with value NaN. -/
theorem C2_counterexample :
    (financial_evaluation solver0 tPos (2/25)).1.2.1 = some FVal.nan ∧
    (TRANSLATIONS "TRIF" "en", FVal.nan) ∈ (runEvaluation solver0 "en" tPos (2/25)).rows := by
  constructor <;>
    simp [runEvaluation, hasFinancial, hasEconomic, Table.get?, finGroup, financial_evaluation,
      finBody, tableCol, seriesSub, npf_irr, sameSign, npf_npv, optRow, TRANSLATIONS, tPos,
      List.range_succ]

/-- Claim C2 witness: the amended theorem evaluated on `tPos`. -/
theorem C2_witness :
    financial_evaluation solver0 tPos (2/25) =
      ((some (FVal.num (npf_npv (2/25) [50, 50])), some FVal.nan, some (FVal.num 0)), []) ∧
    (TRANSLATIONS "TRIF" "en", FVal.nan) ∈ (runEvaluation solver0 "en" tPos (2/25)).rows := by
  have h := C2_all_positive_irr_nan solver0 "en" tPos (2/25) ⟨true, [100, 100]⟩
    ⟨true, [50, 50]⟩ 50 [50] rfl rfl rfl rfl (by norm_num) (by norm_num)
  exact ⟨h.1, h.2 rfl⟩

/-- Claim C1, code behavior at the failing input: on a sheet whose
Corrected_Costs column sums to zero, the adjusted-yield division is numpy
scalar division by zero, so `economic_evaluation` raises nothing and
returns positive infinity, which `main` then includes in the result set
with no error message — where the claim and the specification require an
error and no numeric adjusted yield. -/
theorem C1_zero_cost_sum_yields_infinite_row :
    tZeroCost.get? "Corrected_Costs" = some ⟨true, [0]⟩ ∧
    economic_evaluation solver0 tZeroCost (2/25) =
      ((some (FVal.num 1), some FVal.nan, some FVal.inf), []) ∧
    (TRANSLATIONS "RCA" "en", FVal.inf) ∈ (runEvaluation solver0 "en" tZeroCost (2/25)).rows ∧
    (runEvaluation solver0 "en" tZeroCost (2/25)).errors = [] := by
  refine ⟨rfl, ?_, ?_, ?_⟩ <;>
    simp [runEvaluation, hasFinancial, hasEconomic, Table.get?, ecoGroup, economic_evaluation,
      ecoBody, tableCol, seriesSubAdd, npf_irr, sameSign, npf_npv, floatDiv, optRow,
      TRANSLATIONS, tZeroCost, List.range_succ]

end Apr
